import Mathlib

/-!
Shallow embedding of the two components of the noggles-board repository:
`PlaceholderImage` (src/components/PlaceholderImage.tsx) and the `Banner`
floating-image spawner (src/components/Banner.tsx).

JS numbers are modelled as rationals, `Date.now()` timestamps as integers,
and the unseeded `Math.random()` draws as explicit rational parameters in
`[0, 1)`.  The browser event loop is modelled as a trace of occurrences
(`Ev`): input events plus the firing of pending timeouts.
-/

/-- One floating image, as held in Banner's `floatingImages` state
(Banner.tsx lines 12-20).  `src` is an `Option` because a JS array read out
of bounds yields `undefined`. -/
structure FloatingImage where
  id : String
  src : Option String
  x : ℚ
  y : ℚ
  rotation : ℚ
  scale : ℚ
  zIndex : ℤ
deriving Repr, DecidableEq

/-- The `Math.random()` draws consumed when spawning one floating image:
the source-image pick and the five draws inside `getRandomImageProps`. -/
structure ImgRand where
  pick : ℚ
  jx : ℚ
  jy : ℚ
  rot : ℚ
  sc : ℚ
  zi : ℚ

/-- All draws of `Math.random()` lie in `[0, 1)`. -/
def ImgRand.Valid (r : ImgRand) : Prop :=
  0 ≤ r.pick ∧ r.pick < 1 ∧ 0 ≤ r.jx ∧ r.jx < 1 ∧ 0 ≤ r.jy ∧ r.jy < 1 ∧
  0 ≤ r.rot ∧ r.rot < 1 ∧ 0 ≤ r.sc ∧ r.sc < 1 ∧ 0 ≤ r.zi ∧ r.zi < 1

/-- Result type of `getRandomImageProps`: the TS
`Omit (FloatingImage, id | src)`. -/
structure ImageProps where
  x : ℚ
  y : ℚ
  rotation : ℚ
  scale : ℚ
  zIndex : ℤ

/-- Banner.tsx lines 37-46: randomized placement around the event's local
coordinates.  `0.5` is `1/2`, `0.3` is `3/10`, `0.9` is `9/10`. -/
def getRandomImageProps (x y : ℚ) (r : ImgRand) : ImageProps :=
  { x := x + (r.jx - 1/2) * 100
  , y := y + (r.jy - 1/2) * 100
  , rotation := (r.rot - 1/2) * 12
  , scale := 9/10 + r.sc * 3/10
  , zIndex := ⌊r.zi * 15⌋ }

/-- `memoizedImages[Math.floor(Math.random() * memoizedImages.length)]`:
an out-of-range index reads as `undefined` (`none`). -/
def pickImage (images : List String) (r : ℚ) : Option String :=
  if 0 ≤ ⌊r * (images.length : ℚ)⌋ then
    images.get? (Int.toNat ⌊r * (images.length : ℚ)⌋)
  else none

/-- The image built in iteration `i` of the mouse-move spawn loop
(Banner.tsx lines 67-74): the template-literal id "img-" with `now` and
`i`, plus the spread of `getRandomImageProps`. -/
def mkFloating (images : List String) (now : ℤ) (i : ℕ) (x y : ℚ)
    (r : ImgRand) : FloatingImage :=
  let p := getRandomImageProps x y r
  { id := "img-" ++ toString now ++ "-" ++ toString i
  , src := pickImage images r.pick
  , x := p.x, y := p.y, rotation := p.rotation, scale := p.scale
  , zIndex := p.zIndex }

/-- The image built by `onTouch` (Banner.tsx lines 109-115): the
template-literal id "touch-" with the current timestamp, with no per-burst
index. -/
def mkTouchImage (images : List String) (now : ℤ) (x y : ℚ)
    (r : ImgRand) : FloatingImage :=
  let p := getRandomImageProps x y r
  { id := "touch-" ++ toString now
  , src := pickImage images r.pick
  , x := p.x, y := p.y, rotation := p.rotation, scale := p.scale
  , zIndex := p.zIndex }

/-- Banner's mutable state: the two `useState` hooks plus the refs
`imageCounter` (timestamp of the last accepted spawn, initially 0) and
`cleanupTimer` (deadline of the pending retirement timeout), together with
the deadlines of the anonymous clear-on-leave timeouts of `onMouseLeave`,
whose handles are never stored and hence never cleared. -/
structure BannerState where
  floatingImages : List FloatingImage
  mousePosition : ℚ × ℚ
  imageCounter : ℤ
  cleanupTimer : Option ℤ
  leaveTimers : List ℤ

/-- The state at mount: empty list, cursor at the origin, counter 0, no
pending timers. -/
def initState : BannerState :=
  { floatingImages := [], mousePosition := (0, 0), imageCounter := 0
  , cleanupTimer := none, leaveTimers := [] }

/-- JS `arr.slice(-n)`: the last `n` elements (the whole array when it is
shorter than `n`). -/
def sliceLast (n : ℕ) (l : List α) : List α := l.drop (l.length - n)

/-- Banner.tsx lines 76-79:
`setFloatingImages((prev) => [...prev, newImage].slice(-12))`. -/
def pushImage (img : FloatingImage) (l : List FloatingImage) :
    List FloatingImage :=
  sliceLast 12 (l ++ [img])

/-- The random draws of one mouse-move event: the double-image coin
(line 65) and a supply of per-iteration `ImgRand` draws. -/
structure BurstRand where
  double : ℚ
  imgs : ℕ → ImgRand

/-- The for-loop of Banner.tsx lines 65-80: `numImages` is 2 when
`Math.random() > 0.8`, else 1; each iteration appends one image and slices
to the last 12. -/
def spawnBurst (images : List String) (now : ℤ) (x y : ℚ) (br : BurstRand)
    (l : List FloatingImage) : List FloatingImage :=
  let numImages : ℕ := if br.double > 4/5 then 2 else 1
  (List.range numImages).foldl
    (fun acc i => pushImage (mkFloating images now i x y (br.imgs i)) acc) l

/-- Banner.tsx lines 48-91: update the cursor position unconditionally;
return early when fewer than 80ms elapsed since the last accepted spawn;
otherwise record `now`, run the spawn loop, and replace the pending
retirement timeout with one due at `now + 500`. -/
def onMouseMove (images : List String) (now : ℤ) (x y : ℚ) (br : BurstRand)
    (s : BannerState) : BannerState :=
  let s1 : BannerState := { s with mousePosition := (x, y) }
  if now - s1.imageCounter < 80 then s1
  else
    { s1 with imageCounter := now
            , floatingImages := spawnBurst images now x y br s1.floatingImages
            , cleanupTimer := some (now + 500) }

/-- Banner.tsx lines 93-98: schedule an anonymous clear of the whole list
200ms later; the handle is not stored, so nothing ever clears it. -/
def onMouseLeave (now : ℤ) (s : BannerState) : BannerState :=
  { s with leaveTimers := s.leaveTimers ++ [now + 200] }

/-- Banner.tsx lines 100-120:
`setFloatingImages((prev) => [...prev.slice(-3), newImage])`, with no
throttle check and no timer update. -/
def onTouch (images : List String) (now : ℤ) (x y : ℚ) (r : ImgRand)
    (s : BannerState) : BannerState :=
  { s with floatingImages :=
      sliceLast 3 s.floatingImages ++ [mkTouchImage images now x y r] }

/-- One occurrence processed by the UI event loop: an input event or the
firing of a pending timeout. -/
inductive Ev where
  | move (t : ℤ) (x y : ℚ) (br : BurstRand)
  | leave (t : ℤ)
  | touch (t : ℤ) (x y : ℚ) (r : ImgRand)
  | fireCleanup (t : ℤ)
  | fireLeave (t : ℤ)

/-- Timestamp of an occurrence. -/
def Ev.time : Ev → ℤ
  | .move t _ _ _ => t
  | .leave t => t
  | .touch t _ _ _ => t
  | .fireCleanup t => t
  | .fireLeave t => t

/-- Whether the occurrence is a pointer-move event. -/
def Ev.isMove : Ev → Bool
  | .move _ _ _ _ => true
  | _ => false

/-- Whether the occurrence is a touch-move event. -/
def Ev.isTouch : Ev → Bool
  | .touch _ _ _ _ => true
  | _ => false

/-- Whether the occurrence is the firing of a clear-on-leave timeout. -/
def Ev.isFireLeave : Ev → Bool
  | .fireLeave _ => true
  | _ => false

/-- One step of the event loop.  A cleanup fire runs
`setFloatingImages((prev) => prev.slice(-6))` when the retirement timeout
is pending (Banner.tsx lines 86-88); a leave fire runs
`setFloatingImages([])` when a clear-on-leave timeout is pending
(lines 95-97), consuming the earliest such timeout. -/
def step (images : List String) (s : BannerState) : Ev → BannerState
  | .move t x y br => onMouseMove images t x y br s
  | .leave t => onMouseLeave t s
  | .touch t x y r => onTouch images t x y r s
  | .fireCleanup _ =>
      match s.cleanupTimer with
      | some _ => { s with floatingImages := sliceLast 6 s.floatingImages
                         , cleanupTimer := none }
      | none => s
  | .fireLeave _ =>
      match s.leaveTimers with
      | [] => s
      | _ :: rest => { s with floatingImages := [], leaveTimers := rest }

/-- Run the event loop over a trace of occurrences. -/
def run (images : List String) (s : BannerState) (evs : List Ev) :
    BannerState :=
  evs.foldl (step images) s

/-- One rendered floating image (Banner.tsx lines 157-182): position offset
by (-80, -60), z-index `img.zIndex + index`, opacity
`max 0.15 (1 - index * 0.08)`, eager loading for the first two. -/
structure FloatingImageView where
  key : String
  left : ℚ
  top : ℚ
  rotation : ℚ
  scale : ℚ
  z : ℤ
  opacity : ℚ
  src : Option String
  alt : String
  eager : Bool
deriving Repr, DecidableEq

/-- The container rendered by Banner (Banner.tsx lines 133-198): aria
label, title overlay, the floating images in list order, and the cursor
marker at `mousePosition - 2`. -/
structure ContainerView where
  ariaLabel : String
  title : String
  floating : List FloatingImageView
  cursorLeft : ℚ
  cursorTop : ℚ
deriving Repr, DecidableEq

/-- Banner.tsx lines 131-198: `if (!images.length) return null;` then the
container with handlers and children. -/
def renderBanner (images : List String) (altText : String)
    (s : BannerState) : Option ContainerView :=
  if images.length = 0 then none
  else some
    { ariaLabel := altText
    , title := "Noggles Board"
    , floating := s.floatingImages.enum.map (fun p =>
        { key := p.2.id
        , left := p.2.x - 80
        , top := p.2.y - 60
        , rotation := p.2.rotation
        , scale := p.2.scale
        , z := p.2.zIndex + (p.1 : ℤ)
        , opacity := max (3/20) (1 - (p.1 : ℚ) * (2/25))
        , src := p.2.src
        , alt := altText
        , eager := decide (p.1 < 2) })
    , cursorLeft := s.mousePosition.1 - 2
    , cursorTop := s.mousePosition.2 - 2 }

/-- The props of Banner (Banner.tsx lines 6-10 and 22-26), with the
defaults of the destructuring. -/
structure BannerProps where
  images : List String
  altText : String := "banner"
  autoRotateMs : ℚ := 6000

/-- The event loop of a Banner instance mounted with props `p`. -/
def runP (p : BannerProps) : BannerState → List Ev → BannerState :=
  run p.images

/-- The render of a Banner instance mounted with props `p`. -/
def renderP (p : BannerProps) (s : BannerState) : Option ContainerView :=
  renderBanner p.images p.altText s

/-- The svg element produced by PlaceholderImage.tsx: declared size, the
viewBox string, the background rect fill, and the centered label. -/
structure Svg where
  width : ℚ
  height : ℚ
  viewBox : String
  rectFill : String
  textContent : String
deriving Repr, DecidableEq

/-- PlaceholderImage.tsx lines 1-33, with the default props of the
destructuring. -/
def PlaceholderImage (width : ℚ := 800) (height : ℚ := 600)
    (color : String := "3498db") (text : String := "Image") : Svg :=
  { width := width
  , height := height
  , viewBox := "0 0 " ++ toString width ++ " " ++ toString height
  , rectFill := "#" ++ color
  , textContent := text }

/-! Concrete random draws used by the evaluation theorems below. -/

/-- All-zero random draws (every draw of `Math.random()` came out 0). -/
def r0 : ImgRand := { pick := 0, jx := 0, jy := 0, rot := 0, sc := 0, zi := 0 }

/-- A burst whose coin and per-image draws are all zero. -/
def br0 : BurstRand := { double := 0, imgs := fun _ => r0 }

/-! Helper lemmas about list truncation and the spawn loop. -/

theorem sliceLast_length (n : ℕ) (l : List α) :
    (sliceLast n l).length = min l.length n := by
  simp [sliceLast]
  omega

theorem pushImage_length_le (img : FloatingImage) (l : List FloatingImage) :
    (pushImage img l).length ≤ 12 := by
  simp [pushImage, sliceLast_length]

theorem spawnBurst_length_le (images : List String) (now : ℤ) (x y : ℚ)
    (br : BurstRand) (l : List FloatingImage) :
    (spawnBurst images now x y br l).length ≤ 12 := by
  unfold spawnBurst
  by_cases h : br.double > 4/5 <;>
    simp [h, List.range_succ, pushImage_length_le]

theorem getRandomImageProps_bounds (x y : ℚ) (r : ImgRand)
    (hr : r.Valid) :
    |(getRandomImageProps x y r).x - x| ≤ 50 ∧
    |(getRandomImageProps x y r).y - y| ≤ 50 ∧
    (-6 : ℚ) ≤ (getRandomImageProps x y r).rotation ∧
    (getRandomImageProps x y r).rotation ≤ 6 ∧
    (9/10 : ℚ) ≤ (getRandomImageProps x y r).scale ∧
    (getRandomImageProps x y r).scale ≤ 6/5 ∧
    0 ≤ (getRandomImageProps x y r).zIndex ∧
    (getRandomImageProps x y r).zIndex < 15 := by
  obtain ⟨-, -, h3, h4, h5, h6, h7, h8, h9, h10, h11, h12⟩ := hr
  unfold getRandomImageProps
  refine ⟨?_, ?_, ?_, ?_, ?_, ?_, ?_, ?_⟩
  · rw [abs_le]; constructor <;> simp <;> nlinarith
  · rw [abs_le]; constructor <;> simp <;> nlinarith
  · simp; nlinarith
  · simp; nlinarith
  · simp; nlinarith
  · simp; nlinarith
  · exact Int.floor_nonneg.mpr (by nlinarith)
  · refine Int.floor_lt.mpr ?_
    push_cast
    nlinarith

/-- C7: PlaceholderImage is a pure function of its props; with no
arguments it yields width 800, height 600, background "#3498db" and label
"Image"; and for all inputs the produced graphic's declared width and
height equal the input width and height and its visible label equals the
input text. -/
theorem placeholderImage_spec :
    (PlaceholderImage : Svg).width = 800 ∧
    (PlaceholderImage : Svg).height = 600 ∧
    (PlaceholderImage : Svg).rectFill = "#3498db" ∧
    (PlaceholderImage : Svg).textContent = "Image" ∧
    ∀ (w h : ℚ) (c t : String),
      (PlaceholderImage w h c t).width = w ∧
      (PlaceholderImage w h c t).height = h ∧
      (PlaceholderImage w h c t).textContent = t :=
  ⟨rfl, rfl, rfl, rfl, fun _ _ _ _ => ⟨rfl, rfl, rfl⟩⟩

/-- C6: Banner with an empty images list renders nothing: the guard at
Banner.tsx line 131 returns null before any surface content or handlers
are produced, a defined no-op state for every internal state. -/
theorem empty_images_renders_nothing (altText : String) (s : BannerState) :
    renderBanner [] altText s = none := rfl

/-- C3: every floating image created by a pointer-move (`mkFloating`) or
touch-move (`mkTouchImage`) event with local coordinates (x, y) has its
stored x and y within 50 of x resp. y, rotation in [-6, 6], scale in
[0.9, 1.2], and an integer zIndex in [0, 15), for every valid value of
the random draws. -/
theorem floating_image_bounds (images : List String) (now : ℤ) (i : ℕ)
    (x y : ℚ) (r : ImgRand) (hr : r.Valid) :
    (|(mkFloating images now i x y r).x - x| ≤ 50 ∧
     |(mkFloating images now i x y r).y - y| ≤ 50 ∧
     (-6 : ℚ) ≤ (mkFloating images now i x y r).rotation ∧
     (mkFloating images now i x y r).rotation ≤ 6 ∧
     (9/10 : ℚ) ≤ (mkFloating images now i x y r).scale ∧
     (mkFloating images now i x y r).scale ≤ 6/5 ∧
     0 ≤ (mkFloating images now i x y r).zIndex ∧
     (mkFloating images now i x y r).zIndex < 15) ∧
    (|(mkTouchImage images now x y r).x - x| ≤ 50 ∧
     |(mkTouchImage images now x y r).y - y| ≤ 50 ∧
     (-6 : ℚ) ≤ (mkTouchImage images now x y r).rotation ∧
     (mkTouchImage images now x y r).rotation ≤ 6 ∧
     (9/10 : ℚ) ≤ (mkTouchImage images now x y r).scale ∧
     (mkTouchImage images now x y r).scale ≤ 6/5 ∧
     0 ≤ (mkTouchImage images now x y r).zIndex ∧
     (mkTouchImage images now x y r).zIndex < 15) := by
  have h := getRandomImageProps_bounds x y r hr
  exact ⟨h, h⟩

/-- Witness for C3 at the all-zero draws. -/
theorem floating_image_bounds_witness :
    ImgRand.Valid r0 ∧ |(mkFloating ["a"] 7 0 1 2 r0).x - 1| ≤ 50 := by
  have hval : ImgRand.Valid r0 := by
    refine ⟨?_, ?_, ?_, ?_, ?_, ?_, ?_, ?_, ?_, ?_, ?_, ?_⟩ <;>
      norm_num [r0]
  exact ⟨hval, (floating_image_bounds ["a"] 7 0 1 2 r0 hval).1.1⟩

/-- C10: with a nonempty images list (the case in which Banner attaches
its handlers at all: with an empty list the render guard returns null) and
a pick draw in [0, 1), the random index floor(r * length) is in bounds,
and both spawn paths store the same src, an element of images. -/
theorem pick_in_bounds (images : List String) (now : ℤ) (i : ℕ) (x y : ℚ)
    (r : ImgRand) (hne : images ≠ []) (h0 : 0 ≤ r.pick)
    (h1 : r.pick < 1) :
    Int.toNat ⌊r.pick * (images.length : ℚ)⌋ < images.length ∧
    ∃ src, (mkFloating images now i x y r).src = some src ∧
      (mkTouchImage images now x y r).src = some src ∧ src ∈ images := by
  have hlen : 0 < images.length := List.length_pos.mpr hne
  have hq : (0 : ℚ) < (images.length : ℚ) := by exact_mod_cast hlen
  have hnn : (0 : ℤ) ≤ ⌊r.pick * (images.length : ℚ)⌋ :=
    Int.floor_nonneg.mpr (mul_nonneg h0 (le_of_lt hq))
  have hlt : ⌊r.pick * (images.length : ℚ)⌋ < (images.length : ℤ) := by
    refine Int.floor_lt.mpr ?_
    push_cast
    nlinarith
  have hltn : Int.toNat ⌊r.pick * (images.length : ℚ)⌋ < images.length := by
    omega
  have hpick : pickImage images r.pick =
      some (images.get ⟨Int.toNat ⌊r.pick * (images.length : ℚ)⌋, hltn⟩) := by
    unfold pickImage
    rw [if_pos hnn, List.get?_eq_get hltn]
  exact ⟨hltn, images.get ⟨_, hltn⟩, hpick, hpick, List.get_mem _ _ _⟩

/-- Witness for C10 at images = ["a"] and the all-zero draws. -/
theorem pick_in_bounds_witness :
    (["a"] : List String) ≠ [] ∧ (0 : ℚ) ≤ r0.pick ∧ r0.pick < 1 ∧
    ∃ src, (mkFloating ["a"] 7 0 1 2 r0).src = some src ∧
      (mkTouchImage ["a"] 7 1 2 r0).src = some src ∧ src ∈ ["a"] := by
  have h := pick_in_bounds ["a"] 7 0 1 2 r0 (by simp)
    (by norm_num [r0]) (by norm_num [r0])
  exact ⟨by simp, by norm_num [r0], by norm_num [r0], h.2⟩

/-! Trace lemmas for the event loop. -/

theorem run_cons (images : List String) (s : BannerState) (e : Ev)
    (evs : List Ev) :
    run images s (e :: evs) = run images (step images s e) evs := rfl

theorem moveRun_inv (images : List String) (evs : List Ev)
    (h : ∀ e ∈ evs, e.isMove = true) (s : BannerState)
    (hs : s.floatingImages.length ≤ 12 ∧
      (s.cleanupTimer = none → s.floatingImages.length ≤ 6)) :
    (run images s evs).floatingImages.length ≤ 12 ∧
    ((run images s evs).cleanupTimer = none →
      (run images s evs).floatingImages.length ≤ 6) := by
  induction evs generalizing s with
  | nil => exact hs
  | cons e evs ih =>
    have hm := h e (List.mem_cons_self e evs)
    have ht : ∀ e' ∈ evs, e'.isMove = true :=
      fun e' he' => h e' (List.mem_cons_of_mem _ he')
    rw [run_cons]
    cases e with
    | move t x y br =>
      refine ih ht _ ?_
      by_cases hc : t - s.imageCounter < 80
      · constructor
        · simpa [step, onMouseMove, hc] using hs.1
        · intro hnone
          rw [show (step images s (Ev.move t x y br)).cleanupTimer =
            s.cleanupTimer from by simp [step, onMouseMove, hc]] at hnone
          simpa [step, onMouseMove, hc] using hs.2 hnone
      · constructor
        · simp [step, onMouseMove, hc, spawnBurst_length_le]
        · intro hnone
          simp [step, onMouseMove, hc] at hnone
    | leave t => simp [Ev.isMove] at hm
    | touch t x y r => simp [Ev.isMove] at hm
    | fireCleanup t => simp [Ev.isMove] at hm
    | fireLeave t => simp [Ev.isMove] at hm

/-- C1: for every sequence of pointer-move events from mount, every spawn
insertion leaves at most 12 floating images (each insertion truncates to
the last 12), the state after the whole sequence holds at most 12, and the
firing of the 500ms retirement timeout after the last accepted spawn, with
no further movement, leaves at most 6. -/
theorem banner_list_bounds (images : List String) (evs : List Ev)
    (h : ∀ e ∈ evs, e.isMove = true) :
    (∀ (img : FloatingImage) (l : List FloatingImage),
      (pushImage img l).length ≤ 12) ∧
    (run images initState evs).floatingImages.length ≤ 12 ∧
    ∀ t : ℤ, (step images (run images initState evs)
      (Ev.fireCleanup t)).floatingImages.length ≤ 6 := by
  have hinv := moveRun_inv images evs h initState
    (by simp [initState])
  refine ⟨pushImage_length_le, hinv.1, fun t => ?_⟩
  cases hct : (run images initState evs).cleanupTimer with
  | none =>
    have h6 := hinv.2 hct
    simpa [step, hct] using h6
  | some d =>
    simp [step, hct, sliceLast_length]

/-- Witness for C1 on a single accepted pointer-move. -/
theorem banner_list_bounds_witness :
    (∀ e ∈ [Ev.move 100 1 2 br0], e.isMove = true) ∧
    (run ["a"] initState [Ev.move 100 1 2 br0]).floatingImages.length ≤
      12 := by
  have hm : ∀ e ∈ [Ev.move 100 1 2 br0], e.isMove = true := by
    intro e he
    rw [List.mem_singleton] at he
    subst he
    rfl
  exact ⟨hm, (banner_list_bounds ["a"] [Ev.move 100 1 2 br0] hm).2.1⟩

theorem counter_window_stable (images : List String) (evs : List Ev)
    (s : BannerState)
    (h : ∀ e ∈ evs, e.isMove = true ∧ e.time < s.imageCounter + 80) :
    (run images s evs).floatingImages = s.floatingImages ∧
    (run images s evs).imageCounter = s.imageCounter := by
  induction evs generalizing s with
  | nil => exact ⟨rfl, rfl⟩
  | cons e evs ih =>
    obtain ⟨hm, htime⟩ := h e (List.mem_cons_self e evs)
    cases e with
    | move t x y br =>
      simp only [Ev.time] at htime
      have hrej : t - s.imageCounter < 80 := by omega
      have hstep : step images s (Ev.move t x y br) =
          { s with mousePosition := (x, y) } := by
        simp [step, onMouseMove, hrej]
      rw [run_cons, hstep]
      exact ih { s with mousePosition := (x, y) }
        (fun e' he' => h e' (List.mem_cons_of_mem _ he'))
    | leave t => simp [Ev.isMove] at hm
    | touch t x y r => simp [Ev.isMove] at hm
    | fireCleanup t => simp [Ev.isMove] at hm
    | fireLeave t => simp [Ev.isMove] at hm

/-- C2: from a state whose last accepted spawn happened at time t
(imageCounter = t), a pointer-move earlier than t + 80 leaves the list and
the counter unchanged while still updating the cursor; a whole sequence of
pointer-moves all earlier than t + 80 leaves the list and counter
unchanged, so no second burst is accepted inside the 80ms window; and an
accepted burst records its own time as the new counter. -/
theorem banner_throttle (images : List String) (s : BannerState) (t : ℤ)
    (hc : s.imageCounter = t) :
    (∀ (t' : ℤ) (x y : ℚ) (br : BurstRand), t' < t + 80 →
      (onMouseMove images t' x y br s).floatingImages =
        s.floatingImages ∧
      (onMouseMove images t' x y br s).imageCounter = t ∧
      (onMouseMove images t' x y br s).mousePosition = (x, y)) ∧
    (∀ evs : List Ev,
      (∀ e ∈ evs, e.isMove = true ∧ e.time < t + 80) →
      (run images s evs).floatingImages = s.floatingImages ∧
      (run images s evs).imageCounter = t) ∧
    (∀ (now : ℤ) (x y : ℚ) (br : BurstRand),
      ¬ now - s.imageCounter < 80 →
      (onMouseMove images now x y br s).imageCounter = now) := by
  subst hc
  refine ⟨?_, ?_, ?_⟩
  · intro t' x y br hlt
    have hrej : t' - s.imageCounter < 80 := by omega
    refine ⟨?_, ?_, ?_⟩ <;> simp [onMouseMove, hrej]
  · intro evs h
    exact counter_window_stable images evs s h
  · intro now x y br hacc
    simp [onMouseMove, hacc]

/-- Witness for C2: a pointer-move 50ms after mount (counter 0) is
rejected. -/
theorem banner_throttle_witness :
    initState.imageCounter = 0 ∧
    (onMouseMove ["a"] 50 1 2 br0 initState).floatingImages =
      initState.floatingImages ∧
    (onMouseMove ["a"] 50 1 2 br0 initState).imageCounter = 0 ∧
    (onMouseMove ["a"] 50 1 2 br0 initState).mousePosition = (1, 2) := by
  have h := (banner_throttle ["a"] initState 0 rfl).1 50 1 2 br0
    (by norm_num)
  exact ⟨rfl, h.1, h.2.1, h.2.2⟩

theorem touchRun_le (images : List String) (evs : List Ev)
    (h : ∀ e ∈ evs, e.isTouch = true) (s : BannerState)
    (hs : s.floatingImages.length ≤ 4) :
    (run images s evs).floatingImages.length ≤ 4 := by
  induction evs generalizing s with
  | nil => exact hs
  | cons e evs ih =>
    have hm := h e (List.mem_cons_self e evs)
    rw [run_cons]
    cases e with
    | touch t x y r =>
      refine ih (fun e' he' => h e' (List.mem_cons_of_mem _ he')) _ ?_
      simp [step, onTouch, sliceLast_length]
    | move t x y br => simp [Ev.isTouch] at hm
    | leave t => simp [Ev.isTouch] at hm
    | fireCleanup t => simp [Ev.isTouch] at hm
    | fireLeave t => simp [Ev.isTouch] at hm

/-- C4: a touch-move event appends exactly one new floating image from any
state, with no throttle condition: the result keeps the previous 3 most
recent entries plus the new one, so its length is min(previous, 3) + 1 and
never exceeds 4; and after any touch-only sequence from mount the list
length never exceeds 4. -/
theorem touch_spawn (images : List String) (now : ℤ) (x y : ℚ)
    (r : ImgRand) :
    (∀ s : BannerState,
      (onTouch images now x y r s).floatingImages.length =
        min s.floatingImages.length 3 + 1 ∧
      (onTouch images now x y r s).floatingImages.length ≤ 4 ∧
      (onTouch images now x y r s).floatingImages.getLast? =
        some (mkTouchImage images now x y r)) ∧
    ∀ evs : List Ev, (∀ e ∈ evs, e.isTouch = true) →
      (run images initState evs).floatingImages.length ≤ 4 := by
  constructor
  · intro s
    refine ⟨?_, ?_, ?_⟩
    · simp [onTouch, sliceLast_length]
    · simp [onTouch, sliceLast_length]
    · simp [onTouch]
  · intro evs h
    exact touchRun_le images evs h initState (by simp [initState])

/-- Witness for C4 on a single touch-move. -/
theorem touch_spawn_witness :
    (∀ e ∈ [Ev.touch 5 1 2 r0], e.isTouch = true) ∧
    (run ["a"] initState [Ev.touch 5 1 2 r0]).floatingImages.length ≤
      4 := by
  have hm : ∀ e ∈ [Ev.touch 5 1 2 r0], e.isTouch = true := by
    intro e he
    rw [List.mem_singleton] at he
    subst he
    rfl
  exact ⟨hm, (touch_spawn ["a"] 5 1 2 r0).2 [Ev.touch 5 1 2 r0] hm⟩

theorem leaveTimers_mono (images : List String) (evs : List Ev)
    (h : ∀ e ∈ evs, e.isFireLeave = false) (s : BannerState) (d : ℤ)
    (hd : d ∈ s.leaveTimers) :
    d ∈ (run images s evs).leaveTimers := by
  induction evs generalizing s with
  | nil => exact hd
  | cons e evs ih =>
    have hne := h e (List.mem_cons_self e evs)
    rw [run_cons]
    refine ih (fun e' he' => h e' (List.mem_cons_of_mem _ he')) _ ?_
    cases e with
    | move t x y br =>
      by_cases hc : t - s.imageCounter < 80 <;>
        simpa [step, onMouseMove, hc] using hd
    | leave t =>
      simp [step, onMouseLeave]
      exact Or.inl hd
    | touch t x y r => simpa [step, onTouch] using hd
    | fireCleanup t =>
      cases hct : s.cleanupTimer <;> simpa [step, hct] using hd
    | fireLeave t => simp [Ev.isFireLeave] at hne

/-- C5: a pointer-leave at time t schedules a clear of the whole list due
at t + 200; no subsequent occurrence other than that clear's own firing
cancels it (its handle is never stored); and when a pending clear fires
the floating-image list becomes empty, so 200ms after the leave the list
is empty. -/
theorem leave_clear (images : List String) (s : BannerState) (t : ℤ)
    (evs : List Ev) (h : ∀ e ∈ evs, e.isFireLeave = false) :
    (t + 200) ∈ (run images (onMouseLeave t s) evs).leaveTimers ∧
    ∀ t' : ℤ, (step images (run images (onMouseLeave t s) evs)
      (Ev.fireLeave t')).floatingImages = [] := by
  have hmem : (t + 200) ∈ (onMouseLeave t s).leaveTimers := by
    simp [onMouseLeave]
  have hrun := leaveTimers_mono images evs h (onMouseLeave t s)
    (t + 200) hmem
  refine ⟨hrun, fun t' => ?_⟩
  cases hlt : (run images (onMouseLeave t s) evs).leaveTimers with
  | nil => rw [hlt] at hrun; cases hrun
  | cons d rest => simp [step, hlt]

/-- Witness for C5: leave at time 0 with no intervening occurrences. -/
theorem leave_clear_witness :
    (∀ e ∈ ([] : List Ev), e.isFireLeave = false) ∧
    (0 + 200 : ℤ) ∈
      (run ["a"] (onMouseLeave 0 initState) []).leaveTimers ∧
    (step ["a"] (run ["a"] (onMouseLeave 0 initState) [])
      (Ev.fireLeave 200)).floatingImages = [] := by
  have hnf : ∀ e ∈ ([] : List Ev), e.isFireLeave = false := by
    intro e he
    cases he
  have h := leave_clear ["a"] initState 0 [] hnf
  exact ⟨hnf, h.1, h.2 200⟩

/-- C9: two Banner instances whose props differ only in `autoRotateMs`
have identical event-loop behavior and identical rendered output in every
state: the prop is accepted (with default 6000) but never consumed by the
handlers or the render. -/
theorem autoRotateMs_unused (p1 p2 : BannerProps)
    (h1 : p1.images = p2.images) (h2 : p1.altText = p2.altText) :
    (∀ (s : BannerState) (evs : List Ev),
      runP p1 s evs = runP p2 s evs) ∧
    ∀ s : BannerState, renderP p1 s = renderP p2 s := by
  constructor
  · intro s evs
    unfold runP
    rw [h1]
  · intro s
    unfold renderP
    rw [h1, h2]

/-- Witness for C9 on two props that differ only in autoRotateMs. -/
theorem autoRotateMs_unused_witness :
    ({ images := ["a"], autoRotateMs := 6000 } : BannerProps).images =
      ({ images := ["a"], autoRotateMs := 0 } : BannerProps).images ∧
    ({ images := ["a"], autoRotateMs := 6000 } : BannerProps).altText =
      ({ images := ["a"], autoRotateMs := 0 } : BannerProps).altText ∧
    renderP { images := ["a"], autoRotateMs := 6000 } initState =
      renderP { images := ["a"], autoRotateMs := 0 } initState :=
  ⟨rfl, rfl,
    (autoRotateMs_unused
      { images := ["a"], autoRotateMs := 6000 }
      { images := ["a"], autoRotateMs := 0 } rfl rfl).2 initState⟩

/-- C8 fails on the code: two touch-move events in the same millisecond
(Date.now() equal to 1000 for both) each generate the id "touch-1000",
leaving two live floating images with the same id — `onTouch` has no
per-burst index and no throttle to separate them. -/
theorem touch_id_collision :
    ((run ["a"] initState
        [Ev.touch 1000 0 0 r0, Ev.touch 1000 5 5 r0]).floatingImages.map
      FloatingImage.id) = ["touch-1000", "touch-1000"] ∧
    ¬ ((run ["a"] initState
        [Ev.touch 1000 0 0 r0, Ev.touch 1000 5 5 r0]).floatingImages.map
      FloatingImage.id).Nodup := by
  have hids : ((run ["a"] initState
      [Ev.touch 1000 0 0 r0, Ev.touch 1000 5 5 r0]).floatingImages.map
      FloatingImage.id) = ["touch-1000", "touch-1000"] := rfl
  refine ⟨hids, ?_⟩
  rw [hids]
  decide
